import Mathlib

/-!
Verification of the runtime layer of an XBlock-style component SDK
(`xblock/runtime.py`): the field-name-to-storage-key facade (`DbModel`),
the abstract key-value store contract (`KeyValueStore`), and the
path-query compiler (`Runtime.querypath` with its `RegexLexer`).

The embedding is shallow: Python classes become Lean structures, methods
become pure functions, exceptions become an explicit error sum `PyErr`
threaded through `Except`, and the mutable key-value store becomes a
function `Key -> Option V` passed and returned explicitly.  All
definitions are structurally recursive and executable, so closed claims
evaluate by `rfl` or `decide`.
-/

set_option maxRecDepth 4096

/-- Modelled from the spec: the `BlockScope` enumeration of `xblock/core.py`
(not present under `src/`); spec section 3 fixes its members as
ALL, USAGE, DEFINITION, TYPE and NONE. -/
inductive BlockScope
  | ALL
  | USAGE
  | DEFINITION
  | TYPE
  | NONE
deriving DecidableEq, Repr

/-- Modelled from the spec: the `Scope` value of `xblock/core.py` (not present
under `src/`).  Spec section 3: a scope is either a `(block, user)` pair, or
one of the two special pseudo-scopes `children` / `parent`, which carry no
block/user partitioning of their own (their `block` reads as NONE) and are
distinct sentinel values, compared by identity in `DbModel.key`. -/
inductive Scope
  | base (user : Bool) (block : BlockScope)
  | children
  | parent
deriving DecidableEq, Repr

/-- The `block` dimension of a scope; the pseudo-scopes read as NONE
(spec section 3: NONE is used for the two special pseudo-scopes). -/
def Scope.block : Scope → BlockScope
  | Scope.base _ b => b
  | Scope.children => BlockScope.NONE
  | Scope.parent => BlockScope.NONE

/-- The `user` dimension of a scope; the pseudo-scopes are never
user-partitioned (spec section 3). -/
def Scope.user : Scope → Bool
  | Scope.base u _ => u
  | Scope.children => false
  | Scope.parent => false

/-- Modelled from the spec: a field descriptor (`ModelType` in
`xblock/core.py`, not present under `src/`): metadata for one named field,
carrying its name and its scope (spec section 3). -/
structure ModelType where
  name : String
  scope : Scope
deriving DecidableEq, Repr

/-- A Python attribute value as seen by `DbModel._getfield`: either a field
descriptor (`isinstance(x, ModelType)` holds) or some other object. -/
inductive Attr
  | modelField (f : ModelType)
  | other
deriving DecidableEq, Repr

/-- The type of a namespace instance: `_getfield` inspects
`getattr(type(namespace), name, None)`, i.e. attribute lookup on the
namespace instance's type. -/
structure NamespaceType where
  attrs : String → Option Attr

/-- A component (XBlock) class: attribute lookup (`getattr(cls, name, None)`
returning `none` for a missing attribute), the optional declared ordered
namespace list (`hasattr(cls, 'namespaces')`), and, for each namespace name,
the type of the namespace instance fetched from the class. -/
structure BlockClass where
  attrs : String → Option Attr
  namespaces : Option (List String)
  nsType : String → NamespaceType

/-- Modelled from the spec: component identity (`scope_ids`, spec section 3):
opaque host-supplied identifiers; `student_id` may be absent. -/
structure ScopeIds where
  usage_id : String
  def_id : String
  block_type : String
  student_id : Option String
deriving DecidableEq, Repr

/-- A component instance: its class and its identity. -/
structure Block where
  cls : BlockClass
  scope_ids : ScopeIds

/-- `KeyValueStore.Key`: the structured storage key namedtuple
`(scope, student_id, block_scope_id, field_name)` of `runtime.py`;
`none` models Python `None` (absent). -/
structure Key where
  scope : Scope
  student_id : Option String
  block_scope_id : Option String
  field_name : String
deriving DecidableEq, Repr

/-- The Python exceptions these paths can raise.  `fieldKeyError` and
`storeKeyError` are both `KeyError` (from `_getfield` resp. a store miss)
and are the ones `except KeyError` catches; `invalidScope` models the
`InvalidScopeError` class declared in `runtime.py` (never raised on these
paths); `unboundLocal` models the `UnboundLocalError` crash in `_key` when
no branch assigns `block_id`. -/
inductive PyErr
  | fieldKeyError (name : String)
  | storeKeyError (k : Key)
  | invalidScope
  | unboundLocal
deriving DecidableEq, Repr

/-- The namespace scan of `DbModel._getfield`: iterate the declared namespace
names in order; for each, fetch the namespace instance and inspect its type
for a field descriptor named `name`; first match wins, otherwise
`KeyError(name)`. -/
def DbModel.nsLookup (cls : BlockClass) (name : String) : List String → Except PyErr ModelType
  | [] => Except.error (PyErr.fieldKeyError name)
  | ns :: rest =>
    match (cls.nsType ns).attrs name with
    | some (Attr.modelField f) => Except.ok f
    | _ => DbModel.nsLookup cls name rest

/-- `DbModel._getfield`: the class attribute named `name` if it is a field
descriptor; else, if the class declares no `namespaces`, `KeyError(name)`;
else the first matching descriptor over the declared namespace names. -/
def DbModel.getfield (block : Block) (name : String) : Except PyErr ModelType :=
  match block.cls.attrs name with
  | some (Attr.modelField f) => Except.ok f
  | _ =>
    match block.cls.namespaces with
    | none => Except.error (PyErr.fieldKeyError name)
    | some nsNames => DbModel.nsLookup block.cls name nsNames

/-- `DbModel._key`: resolve `name` to a field and build the structured key.
For `children`/`parent` scopes the key uses `usage_id` and no student id.
Otherwise the `elif` chain on `field.scope.block` covers only ALL, USAGE,
DEFINITION and TYPE; for any other value `block_id` is never assigned and
the `KeyValueStore.Key(...)` construction raises `UnboundLocalError`,
modelled by the `none` branch below. -/
def DbModel.key (b : Block) (name : String) : Except PyErr Key := do
  let field ← DbModel.getfield b name
  if field.scope = Scope.children ∨ field.scope = Scope.parent then
    pure { scope := field.scope
         , student_id := none
         , block_scope_id := some b.scope_ids.usage_id
         , field_name := name }
  else
    let block_id : Option (Option String) :=
      if field.scope.block = BlockScope.ALL then some none
      else if field.scope.block = BlockScope.USAGE then some (some b.scope_ids.usage_id)
      else if field.scope.block = BlockScope.DEFINITION then some (some b.scope_ids.def_id)
      else if field.scope.block = BlockScope.TYPE then some (some b.scope_ids.block_type)
      else none
    let student_id : Option String :=
      if field.scope.user then b.scope_ids.student_id else none
    match block_id with
    | some bid =>
      pure { scope := field.scope
           , student_id := student_id
           , block_scope_id := bid
           , field_name := name }
    | none => Except.error PyErr.unboundLocal

/-- A concrete key-value store backing the abstract `KeyValueStore`
contract: a finite-support map from keys to values, `none` meaning the key
is absent (its `get` raises `KeyError`). -/
def StoreFn (V : Type) : Type := Key → Option V

/-- A concrete `KeyValueStore.set`: bind `k` to `v`. -/
def storeSet {V : Type} (k : Key) (v : V) (s : StoreFn V) : StoreFn V :=
  fun k2 => if k2 = k then some v else s k2

/-- A concrete `KeyValueStore.delete`: remove `k` (idempotent). -/
def storeDelete {V : Type} (k : Key) (s : StoreFn V) : StoreFn V :=
  fun k2 => if k2 = k then none else s k2

/-- `KeyValueStore.set_many` (base-class default): brute-force update
field by field through `set`, in iteration order of the mapping.  Stated
generically over any key/value/state types and any `set` operation, since
the base class leaves `set` abstract. -/
def KeyValueStore.set_many {κ ν σ : Type} (set : κ → ν → σ → σ) : List (κ × ν) → σ → σ
  | [], s => s
  | (k, v) :: rest, s => KeyValueStore.set_many set rest (set k v s)

/-- The reference semantics the spec gives for the bulk write: apply `set`
once per entry, in the mapping's iteration order (a left fold). -/
def specSequentialSets {κ ν σ : Type} (set : κ → ν → σ → σ) (pairs : List (κ × ν)) (s : σ) : σ :=
  pairs.foldl (fun acc p => set p.1 p.2 acc) s

/-- The concrete store's bulk write: the base-class sequential default over
`storeSet`. -/
def storeSetMany {V : Type} (pairs : List (Key × V)) (s : StoreFn V) : StoreFn V :=
  KeyValueStore.set_many storeSet pairs s

/-- The body of the `try` in `DbModel.get`:
`self._kvs.get(self._key(block, name))`; a store miss raises
`KeyError(key)`. -/
def DbModel.getRaw {V : Type} (b : Block) (name : String) (s : StoreFn V) : Except PyErr V := do
  let k ← DbModel.key b name
  match s k with
  | some v => pure v
  | none => Except.error (PyErr.storeKeyError k)

/-- `DbModel.get`: the whole lookup (key construction included) runs inside
`try: ... except KeyError:`; a caught `KeyError` (from field resolution or
from the store) yields the caller default when one was supplied
(`dflt = some d`; `none` models the UNSET sentinel) and re-raises
otherwise.  Exceptions that are not `KeyError` propagate unconditionally. -/
def DbModel.get {V : Type} (b : Block) (name : String) (dflt : Option V) (s : StoreFn V) :
    Except PyErr V :=
  match DbModel.getRaw b name s with
  | Except.ok v => Except.ok v
  | Except.error (PyErr.fieldKeyError m) =>
    match dflt with
    | none => Except.error (PyErr.fieldKeyError m)
    | some d => Except.ok d
  | Except.error (PyErr.storeKeyError k) =>
    match dflt with
    | none => Except.error (PyErr.storeKeyError k)
    | some d => Except.ok d
  | Except.error PyErr.invalidScope => Except.error PyErr.invalidScope
  | Except.error PyErr.unboundLocal => Except.error PyErr.unboundLocal

/-- `DbModel.set`: `self._kvs.set(self._key(block, name), value)`; the key is
built first, so a resolution error propagates before the store is touched. -/
def DbModel.set {V : Type} (b : Block) (name : String) (v : V) (s : StoreFn V) :
    Except PyErr (StoreFn V) := do
  let k ← DbModel.key b name
  pure (storeSet k v s)

/-- `DbModel.delete`: `self._kvs.delete(self._key(block, name))`. -/
def DbModel.delete {V : Type} (b : Block) (name : String) (s : StoreFn V) :
    Except PyErr (StoreFn V) := do
  let k ← DbModel.key b name
  pure (storeDelete k s)

/-- The key-building loop of `DbModel.set_many`: map every `(name, value)`
entry to `(key, value)` in iteration order, stopping at the first failing
`_key`.  (Distinct names always yield distinct keys, since the key embeds
`field_name`, so the Python dict holding the result never collapses
entries.) -/
def DbModel.keys_for {V : Type} (b : Block) : List (String × V) → Except PyErr (List (Key × V))
  | [] => Except.ok []
  | (n, v) :: rest => do
    let k ← DbModel.key b n
    let tail ← DbModel.keys_for b rest
    pure ((k, v) :: tail)

/-- `DbModel.set_many`: build the full keyed mapping first, then issue one
bulk write through the store's `set_many`. -/
def DbModel.set_many {V : Type} (b : Block) (pairs : List (String × V)) (s : StoreFn V) :
    Except PyErr (StoreFn V) := do
  let kvs ← DbModel.keys_for b pairs
  pure (storeSetMany kvs s)

/-- The empty concrete store over `Nat` values, used in concrete instances. -/
def emptyStoreN : StoreFn Nat := fun _ => none

/-- A token of `Runtime.querypath`'s `RegexLexer`, in the lexer's fixed rule
priority order: `\.\.`, `\.`, `//`, `/`, `@\w+`, `\w+`, and the catch-all
single-character `err` rule.  Multi-character tokens carry their matched
text as a character list. -/
inductive Tok
  | dotdot
  | dot
  | slashslash
  | slash
  | atword (text : List Char)
  | word (text : List Char)
  | err (c : Char)
deriving DecidableEq, Repr

/-- Python 2 `\w` without the UNICODE flag: ASCII letters, digits and
underscore. -/
def isWordChar (c : Char) : Bool :=
  c.isAlphanum || c = ('_')

/-- Scanner state between characters, encoding the pending partial match:
after a `.` (which may extend to `..`), after a `/` (may extend to `//`),
after a `@` (needs a word character to become an `atword`), or inside the
greedy word run of an `atword`/`word` (carrying the text matched so far). -/
inductive LexMode
  | normal
  | afterDot
  | afterSlash
  | afterAt
  | inAtWord (acc : List Char)
  | inWord (acc : List Char)
deriving DecidableEq, Repr

/-- Start a fresh token at character `c` (the lexer's rule order with no
pending partial match).  `re.finditer` simply skips a character no rule
matches; with the catch-all `err` rule being `.`, which does not match a
newline, only `\n` is skipped. -/
def startTok (c : Char) : List Tok × LexMode :=
  if c = ('.') then ([], LexMode.afterDot)
  else if c = ('/') then ([], LexMode.afterSlash)
  else if c = ('@') then ([], LexMode.afterAt)
  else if isWordChar c then ([], LexMode.inWord [c])
  else if c = ('\n') then ([], LexMode.normal)
  else ([Tok.err c], LexMode.normal)

/-- One scanner step: emit the tokens completed by reading `c` and move to
the next mode.  Longest match comes from rule order (`..` before `.`, `//`
before `/`) and from the greedy `\w+` runs. -/
def lexStep (m : LexMode) (c : Char) : List Tok × LexMode :=
  match m with
  | LexMode.normal => startTok c
  | LexMode.afterDot =>
    if c = ('.') then ([Tok.dotdot], LexMode.normal)
    else
      let (ts, m2) := startTok c
      (Tok.dot :: ts, m2)
  | LexMode.afterSlash =>
    if c = ('/') then ([Tok.slashslash], LexMode.normal)
    else
      let (ts, m2) := startTok c
      (Tok.slash :: ts, m2)
  | LexMode.afterAt =>
    if isWordChar c then ([], LexMode.inAtWord [('@'), c])
    else
      let (ts, m2) := startTok c
      (Tok.err ('@') :: ts, m2)
  | LexMode.inAtWord acc =>
    if isWordChar c then ([], LexMode.inAtWord (acc ++ [c]))
    else
      let (ts, m2) := startTok c
      (Tok.atword acc :: ts, m2)
  | LexMode.inWord acc =>
    if isWordChar c then ([], LexMode.inWord (acc ++ [c]))
    else
      let (ts, m2) := startTok c
      (Tok.word acc :: ts, m2)

/-- Flush the pending partial match at end of input. -/
def lexFlush : LexMode → List Tok
  | LexMode.normal => []
  | LexMode.afterDot => [Tok.dot]
  | LexMode.afterSlash => [Tok.slash]
  | LexMode.afterAt => [Tok.err ('@')]
  | LexMode.inAtWord acc => [Tok.atword acc]
  | LexMode.inWord acc => [Tok.word acc]

/-- Drive the scanner over the input. -/
def lexAux (m : LexMode) : List Char → List Tok
  | [] => lexFlush m
  | c :: rest =>
    let (ts, m2) := lexStep m c
    ts ++ lexAux m2 rest

/-- `RegexLexer.lex` for `querypath`'s token rules: the token stream of a
path, left to right, first matching rule winning. -/
def lexList (l : List Char) : List Tok :=
  lexAux LexMode.normal l

/-- A recorded call on the query handle returned by `Runtime.query`.  The
handle is functional (each call returns a new handle), so a handle is
exactly the sequence of navigation calls made on it, in order. -/
inductive QOp
  | parent
  | children
  | descendants
  | tagged (name : String)
  | attr (name : String)
deriving DecidableEq, Repr

/-- The parser states of `querypath`: `ROOT, SEP, WORD, FINAL = range(4)`. -/
inductive PState
  | ROOT
  | SEP
  | WORD
  | FINAL
deriving DecidableEq, Repr

/-- The exceptions `querypath` raises: its local `BadPath`, and the
`NotImplementedError` for a `/` or `//` while still in `ROOT`. -/
inductive PErr
  | badPath
  | notImplemented
deriving DecidableEq, Repr

/-- One iteration of `querypath`'s token loop, transcribed branch by branch:
any token in `FINAL` is `BadPath`; `dotdot`/`dot` are rejected in `WORD`;
`slashslash`/`slash` are rejected in `SEP` (`BadPath`) and in `ROOT`
(`NotImplementedError`); `atword`/`word` are rejected outside `SEP`; `err`
is always `BadPath`.  The `atword` action drops the leading `@` from the
token text (`toktext[1:]`); the `word` action is the two calls
`children()` then `tagged(toktext)`. -/
def pstep (state : PState) (q : List QOp) (tok : Tok) : Except PErr (PState × List QOp) :=
  if state = PState.FINAL then Except.error PErr.badPath
  else
    match tok with
    | Tok.dotdot =>
      if state = PState.WORD then Except.error PErr.badPath
      else Except.ok (PState.WORD, q ++ [QOp.parent])
    | Tok.dot =>
      if state = PState.WORD then Except.error PErr.badPath
      else Except.ok (PState.WORD, q)
    | Tok.slashslash =>
      if state = PState.SEP then Except.error PErr.badPath
      else if state = PState.ROOT then Except.error PErr.notImplemented
      else Except.ok (PState.SEP, q ++ [QOp.descendants])
    | Tok.slash =>
      if state = PState.SEP then Except.error PErr.badPath
      else if state = PState.ROOT then Except.error PErr.notImplemented
      else Except.ok (PState.SEP, q)
    | Tok.atword text =>
      if state ≠ PState.SEP then Except.error PErr.badPath
      else Except.ok (PState.FINAL, q ++ [QOp.attr (String.mk (text.drop 1))])
    | Tok.word text =>
      if state ≠ PState.SEP then Except.error PErr.badPath
      else Except.ok (PState.WORD, q ++ [QOp.children, QOp.tagged (String.mk text)])
    | Tok.err _ => Except.error PErr.badPath

/-- The token loop of `querypath`. -/
def runPath (state : PState) (q : List QOp) : List Tok → Except PErr (PState × List QOp)
  | [] => Except.ok (state, q)
  | t :: ts =>
    match pstep state q t with
    | Except.ok (s2, q2) => runPath s2 q2 ts
    | Except.error e => Except.error e

/-- `Runtime.querypath`: lex the path and run the state machine from `ROOT`
over the fresh query handle (the empty call sequence).  The result carries
the final parser state alongside the compiled handle. -/
def Runtime.querypath (path : String) : Except PErr (PState × List QOp) :=
  runPath PState.ROOT [] (lexList path.toList)

/-- Extract a field descriptor from an attribute lookup result: the
`x is not None and isinstance(x, ModelType)` test of `_getfield`, as a
partial projection. -/
def fieldAttr : Option Attr → Option ModelType
  | some (Attr.modelField f) => some f
  | _ => none

/-- Example field: user-scoped, usage-keyed (like `Scope.user_state`). -/
def exFieldPoints : ModelType :=
  { name := "points", scope := Scope.base true BlockScope.USAGE }

/-- Example field with the `children` pseudo-scope. -/
def exFieldKids : ModelType :=
  { name := "kids", scope := Scope.children }

/-- Example field whose scope's block dimension is the unhandled NONE
member: `_key` crashes on it. -/
def exFieldMeta : ModelType :=
  { name := "meta", scope := Scope.base false BlockScope.NONE }

/-- Example field owned by a namespace, globally scoped. -/
def exFieldNsf : ModelType :=
  { name := "nsf", scope := Scope.base false BlockScope.ALL }

/-- Example namespace type declaring `nsf`. -/
def exNs1 : NamespaceType :=
  { attrs := fun n => if n = "nsf" then some (Attr.modelField exFieldNsf) else none }

/-- A namespace type with no attributes. -/
def exNsEmpty : NamespaceType :=
  { attrs := fun _ => none }

/-- Example component class: three direct fields, one non-descriptor
attribute, and one declared namespace. -/
def exCls : BlockClass :=
  { attrs := fun n =>
      if n = "points" then some (Attr.modelField exFieldPoints)
      else if n = "kids" then some (Attr.modelField exFieldKids)
      else if n = "meta" then some (Attr.modelField exFieldMeta)
      else if n = "plain" then some Attr.other
      else none
  , namespaces := some [("ns1")]
  , nsType := fun ns => if ns = "ns1" then exNs1 else exNsEmpty }

/-- Example component identity, with a present student id. -/
def exIds : ScopeIds :=
  { usage_id := "u1", def_id := "d1", block_type := "t1", student_id := some "s1" }

/-- Example component instance. -/
def exBlock : Block :=
  { cls := exCls, scope_ids := exIds }

/-- The key `_key` builds for `exBlock`'s field `points`. -/
def exPointsKey : Key :=
  { scope := Scope.base true BlockScope.USAGE
  , student_id := some "s1"
  , block_scope_id := some "u1"
  , field_name := "points" }

/-! ## Helper lemmas (shared; not tied to any one claim) -/

/-- The namespace scan returns the first declared namespace's matching
descriptor, i.e. agrees with `List.findSome?` over the declared order. -/
theorem nsLookup_eq_findSome (cls : BlockClass) (n : String) :
    ∀ l : List String, DbModel.nsLookup cls n l =
      match l.findSome? (fun ns => fieldAttr ((cls.nsType ns).attrs n)) with
      | some f => Except.ok f
      | none => Except.error (PyErr.fieldKeyError n)
  | [] => rfl
  | ns :: rest => by
    rcases hattr : (cls.nsType ns).attrs n with _ | a
    · simp [DbModel.nsLookup, List.findSome?, hattr, fieldAttr,
        nsLookup_eq_findSome cls n rest]
    · cases a with
      | modelField f =>
        simp [DbModel.nsLookup, List.findSome?, hattr, fieldAttr]
      | other =>
        simp [DbModel.nsLookup, List.findSome?, hattr, fieldAttr,
          nsLookup_eq_findSome cls n rest]

/-- A field-resolution failure propagates unchanged through `_key`. -/
theorem key_error_of_getfield_error (b : Block) (n : String) (e : PyErr)
    (h : DbModel.getfield b n = Except.error e) :
    DbModel.key b n = Except.error e := by
  unfold DbModel.key
  rw [h]
  rfl

/-- Unfolding of `_key` once resolution has produced the descriptor `f`. -/
theorem key_cases (b : Block) (n : String) (f : ModelType)
    (h : DbModel.getfield b n = Except.ok f) :
    DbModel.key b n =
      if f.scope = Scope.children ∨ f.scope = Scope.parent then
        Except.ok { scope := f.scope, student_id := none
                  , block_scope_id := some b.scope_ids.usage_id, field_name := n }
      else
        match (if f.scope.block = BlockScope.ALL then some (none : Option String)
               else if f.scope.block = BlockScope.USAGE then some (some b.scope_ids.usage_id)
               else if f.scope.block = BlockScope.DEFINITION then some (some b.scope_ids.def_id)
               else if f.scope.block = BlockScope.TYPE then some (some b.scope_ids.block_type)
               else none) with
        | some bid =>
          Except.ok { scope := f.scope
                    , student_id := if f.scope.user then b.scope_ids.student_id else none
                    , block_scope_id := bid, field_name := n }
        | none => Except.error PyErr.unboundLocal := by
  unfold DbModel.key
  rw [h]
  rfl

/-! ## Claim theorems -/

/-- Claim C3 (confirmed): field resolution is deterministic and
order-sensitive.  (a) A descriptor found directly on the type is returned,
shadowing any namespace field of the same name (the conclusion holds
whatever the namespaces declare).  (b) If the attribute on the type is not
a descriptor and the type declares no namespace list, resolution fails
with `KeyError(name)`.  (c) Otherwise the declared namespace names are
scanned in declaration order, inspecting each namespace instance's type,
and the first matching descriptor (`List.findSome?` over the declared
order) is returned; if none matches, resolution fails with
`KeyError(name)`.  Determinism and referential stability are intrinsic:
`DbModel.getfield` is a pure function of the class and the name. -/
theorem getfield_resolution_order (b : Block) (n : String) :
    (∀ f : ModelType, b.cls.attrs n = some (Attr.modelField f) →
       DbModel.getfield b n = Except.ok f) ∧
    (fieldAttr (b.cls.attrs n) = none → b.cls.namespaces = none →
       DbModel.getfield b n = Except.error (PyErr.fieldKeyError n)) ∧
    (∀ l : List String, fieldAttr (b.cls.attrs n) = none → b.cls.namespaces = some l →
       DbModel.getfield b n =
         match l.findSome? (fun ns => fieldAttr ((b.cls.nsType ns).attrs n)) with
         | some f => Except.ok f
         | none => Except.error (PyErr.fieldKeyError n)) := by
  refine ⟨?_, ?_, ?_⟩
  · intro f hf
    simp [DbModel.getfield, hf]
  · intro h1 h2
    rcases hattr : b.cls.attrs n with _ | a
    · simp [DbModel.getfield, hattr, h2]
    · cases a with
      | modelField f =>
        rw [hattr] at h1
        simp [fieldAttr] at h1
      | other =>
        simp [DbModel.getfield, hattr, h2]
  · intro l h1 h2
    have hns : DbModel.getfield b n = DbModel.nsLookup b.cls n l := by
      rcases hattr : b.cls.attrs n with _ | a
      · simp [DbModel.getfield, hattr, h2]
      · cases a with
        | modelField f =>
          rw [hattr] at h1
          simp [fieldAttr] at h1
        | other =>
          simp [DbModel.getfield, hattr, h2]
    rw [hns, nsLookup_eq_findSome]

/-- Witness for C3: on the example class, the namespace-owned field `nsf`
(not a direct attribute) resolves to the first declared namespace's
descriptor. -/
theorem getfield_resolution_order_witness :
    DbModel.getfield exBlock ("nsf") = Except.ok exFieldNsf :=
  ((getfield_resolution_order exBlock ("nsf")).2.2 [("ns1")] rfl rfl).trans rfl

/-- Claim C2 (confirmed): the constructed key equals the reference
definition.  If the resolved field's scope is `children` or `parent`,
`block_scope_id` is the usage id and `student_id` is absent; otherwise
`block_scope_id` is absent for ALL, the usage id for USAGE, the definition
id for DEFINITION and the block type for TYPE, and `student_id` is the
identity's student id exactly when the scope's `user` dimension is true
(absent otherwise).  The key's scope is the field's scope and its
`field_name` is the requested name. -/
theorem key_matches_reference (b : Block) (n : String) (f : ModelType)
    (h : DbModel.getfield b n = Except.ok f) :
    (f.scope = Scope.children ∨ f.scope = Scope.parent →
       DbModel.key b n = Except.ok
         { scope := f.scope, student_id := none
         , block_scope_id := some b.scope_ids.usage_id, field_name := n }) ∧
    (∀ u : Bool, f.scope = Scope.base u BlockScope.ALL →
       DbModel.key b n = Except.ok
         { scope := f.scope
         , student_id := if u then b.scope_ids.student_id else none
         , block_scope_id := none, field_name := n }) ∧
    (∀ u : Bool, f.scope = Scope.base u BlockScope.USAGE →
       DbModel.key b n = Except.ok
         { scope := f.scope
         , student_id := if u then b.scope_ids.student_id else none
         , block_scope_id := some b.scope_ids.usage_id, field_name := n }) ∧
    (∀ u : Bool, f.scope = Scope.base u BlockScope.DEFINITION →
       DbModel.key b n = Except.ok
         { scope := f.scope
         , student_id := if u then b.scope_ids.student_id else none
         , block_scope_id := some b.scope_ids.def_id, field_name := n }) ∧
    (∀ u : Bool, f.scope = Scope.base u BlockScope.TYPE →
       DbModel.key b n = Except.ok
         { scope := f.scope
         , student_id := if u then b.scope_ids.student_id else none
         , block_scope_id := some b.scope_ids.block_type, field_name := n }) := by
  rw [key_cases b n f h]
  refine ⟨?_, ?_, ?_, ?_, ?_⟩
  · intro hcp
    rcases hcp with hc | hp
    · simp [hc]
    · simp [hp]
  · intro u hs
    simp [hs, Scope.block, Scope.user]
  · intro u hs
    simp [hs, Scope.block, Scope.user]
  · intro u hs
    simp [hs, Scope.block, Scope.user]
  · intro u hs
    simp [hs, Scope.block, Scope.user]

/-- Witness for C2: for the example block's user-scoped USAGE field
`points`, the key carries the student id and the usage id. -/
theorem key_matches_reference_witness :
    DbModel.key exBlock ("points") = Except.ok exPointsKey :=
  ((key_matches_reference exBlock ("points") exFieldPoints rfl).2.2.1 true rfl).trans rfl

/-- Claim C10 (confirmed): key construction is total exactly on the scopes
the `elif` chain covers.  For a resolved field whose scope is not
`children`/`parent` and whose block dimension is the NONE member, no
branch assigns `block_id` and the `Key(...)` construction crashes with
`UnboundLocalError` — not `KeyError` (NotFound), not `InvalidScopeError`,
and no key is produced.  For `children`/`parent`, or a block dimension
among ALL/USAGE/DEFINITION/TYPE, a key is produced. -/
theorem key_total_iff_supported_scope (b : Block) (n : String) (f : ModelType)
    (h : DbModel.getfield b n = Except.ok f) :
    (∀ u : Bool, f.scope = Scope.base u BlockScope.NONE →
       DbModel.key b n = Except.error PyErr.unboundLocal) ∧
    (f.scope = Scope.children ∨ f.scope = Scope.parent ∨
       f.scope.block = BlockScope.ALL ∨ f.scope.block = BlockScope.USAGE ∨
       f.scope.block = BlockScope.DEFINITION ∨ f.scope.block = BlockScope.TYPE →
       ∃ k : Key, DbModel.key b n = Except.ok k) := by
  rw [key_cases b n f h]
  constructor
  · intro u hs
    simp [hs, Scope.block]
  · intro hsup
    rcases hscope : f.scope with ⟨u, blk⟩ | _ | _
    · rw [hscope] at hsup
      cases blk with
      | ALL => simp [hscope, Scope.block, Scope.user]
      | USAGE => simp [hscope, Scope.block, Scope.user]
      | DEFINITION => simp [hscope, Scope.block, Scope.user]
      | TYPE => simp [hscope, Scope.block, Scope.user]
      | NONE => simp [Scope.block] at hsup
    · simp [hscope]
    · simp [hscope]

/-- Witness for C10: on the example block, the NONE-block field `meta`
resolves but key construction crashes, and the USAGE field `points`
produces a key. -/
theorem key_total_iff_supported_scope_witness :
    DbModel.key exBlock ("meta") = Except.error PyErr.unboundLocal ∧
    ∃ k : Key, DbModel.key exBlock ("points") = Except.ok k :=
  ⟨(key_total_iff_supported_scope exBlock ("meta") exFieldMeta rfl).1 false rfl,
   (key_total_iff_supported_scope exBlock ("points") exFieldPoints rfl).2
     (Or.inr (Or.inr (Or.inr (Or.inl rfl))))⟩

/-- Computation rule: binding a success runs the continuation. -/
@[simp] theorem exceptBind_ok {ε α β : Type} (a : α) (f : α → Except ε β) :
    (Except.ok a >>= f) = f a := rfl

/-- Computation rule: binding a failure short-circuits. -/
@[simp] theorem exceptBind_error {ε α β : Type} (e : ε) (f : α → Except ε β) :
    ((Except.error e : Except ε α) >>= f) = Except.error e := rfl

/-- Computation rule: mapping over a success. -/
@[simp] theorem exceptMap_ok {ε α β : Type} (g : α → β) (a : α) :
    (g <$> (Except.ok a : Except ε α)) = Except.ok (g a) := rfl

/-- Computation rule: mapping over a failure. -/
@[simp] theorem exceptMap_error {ε α β : Type} (g : α → β) (e : ε) :
    (g <$> (Except.error e : Except ε α)) = (Except.error e : Except ε β) := rfl

/-- Computation rule: `pure` is `Except.ok`. -/
@[simp] theorem exceptPure_eq {ε α : Type} (a : α) :
    (pure a : Except ε α) = Except.ok a := rfl

/-- If some name in the mapping has a failing `_key`, the key-building loop
of `set_many` fails (with the first failing name's error). -/
theorem keys_for_error_mem {V : Type} (b : Block) (n : String) (e : PyErr) :
    ∀ pairs : List (String × V), n ∈ pairs.map Prod.fst →
      DbModel.key b n = Except.error e →
      ∃ e2, DbModel.keys_for b pairs = Except.error e2
  | [], hmem, _ => by simp at hmem
  | (m, v) :: rest, hmem, hkey => by
    cases hk : DbModel.key b m with
    | error e1 =>
      exact ⟨e1, by simp [DbModel.keys_for, hk]⟩
    | ok k =>
      have hne : n ≠ m := by
        intro hnm
        rw [hnm, hk] at hkey
        exact Except.noConfusion hkey
      rw [List.map_cons] at hmem
      rcases List.mem_cons.mp hmem with hnm | hmem2
      · exact absurd hnm hne
      · obtain ⟨e2, h2⟩ := keys_for_error_mem b n e rest hmem2 hkey
        exact ⟨e2, by simp [DbModel.keys_for, hk, h2]⟩

/-- If every name before `n` builds its key and `n`'s `_key` fails with `e`,
the key-building loop fails with exactly `e`. -/
theorem keys_for_append_error {V : Type} (b : Block) (n : String) (v : V) (e : PyErr)
    (rest : List (String × V)) (hkey : DbModel.key b n = Except.error e) :
    ∀ pre : List (String × V), (∀ p ∈ pre, ∃ k, DbModel.key b p.1 = Except.ok k) →
      DbModel.keys_for b (pre ++ (n, v) :: rest) = Except.error e
  | [], _ => by simp [DbModel.keys_for, hkey]
  | (m, w) :: pre2, hpre => by
    obtain ⟨k, hk⟩ := hpre (m, w) (List.mem_cons_self _ _)
    have hpre2 : ∀ p ∈ pre2, ∃ k, DbModel.key b p.1 = Except.ok k :=
      fun p hp => hpre p (List.mem_cons_of_mem _ hp)
    have ih := keys_for_append_error b n v e rest hkey pre2 hpre2
    simp [DbModel.keys_for, hk, ih]

/-- The base-class `set_many` loop equals a left fold of `set`. -/
theorem kvs_set_many_foldl {κ ν σ : Type} (set : κ → ν → σ → σ) :
    ∀ (pairs : List (κ × ν)) (s : σ),
      KeyValueStore.set_many set pairs s = specSequentialSets set pairs s
  | [], _ => rfl
  | (k, v) :: rest, s => kvs_set_many_foldl set rest (set k v s)

/-- Claim C1 counterexample: on the example block, the field name
`missing` does not resolve (NotFound from `_getfield`), yet `get` with a
caller-supplied default returns the default instead of propagating —
because the `try` in `DbModel.get` wraps the `_key` call too. -/
theorem get_default_masks_resolution_error :
    DbModel.getfield exBlock ("missing") = Except.error (PyErr.fieldKeyError ("missing")) ∧
    DbModel.get exBlock ("missing") (some (7 : Nat)) emptyStoreN = Except.ok 7 :=
  ⟨rfl, rfl⟩

/-- Claim C1 (corrected): `get` returns the caller-supplied default
exactly when the attempted lookup raises `KeyError` — whether from the
store's `get` on the constructed key or from field resolution itself; with
no caller default, that `KeyError` propagates.  A stored value is returned
regardless of the default, and the unbound-local crash for unsupported
scopes propagates unconditionally (it is not a `KeyError`). -/
theorem get_default_exactly_on_keyerror {V : Type} (b : Block) (n : String) (d : V)
    (s : StoreFn V) :
    (∀ m : String, DbModel.key b n = Except.error (PyErr.fieldKeyError m) →
       DbModel.get b n (some d) s = Except.ok d ∧
       DbModel.get b n (none : Option V) s = Except.error (PyErr.fieldKeyError m)) ∧
    (∀ k : Key, DbModel.key b n = Except.ok k → s k = none →
       DbModel.get b n (some d) s = Except.ok d ∧
       DbModel.get b n (none : Option V) s = Except.error (PyErr.storeKeyError k)) ∧
    (∀ (k : Key) (v : V), DbModel.key b n = Except.ok k → s k = some v →
       ∀ o : Option V, DbModel.get b n o s = Except.ok v) ∧
    (DbModel.key b n = Except.error PyErr.unboundLocal →
       ∀ o : Option V, DbModel.get b n o s = Except.error PyErr.unboundLocal) := by
  refine ⟨?_, ?_, ?_, ?_⟩
  · intro m hk
    constructor <;> simp [DbModel.get, DbModel.getRaw, hk]
  · intro k hk hs
    constructor <;> simp [DbModel.get, DbModel.getRaw, hk, hs]
  · intro k v hk hs o
    cases o <;> simp [DbModel.get, DbModel.getRaw, hk, hs]
  · intro hk o
    cases o <;> simp [DbModel.get, DbModel.getRaw, hk]

/-- Witness for C1 (amended): a masked resolution failure with a default,
a propagated store miss without one, and a stored-value hit. -/
theorem get_default_exactly_on_keyerror_witness :
    DbModel.get exBlock ("missing") (some (3 : Nat)) emptyStoreN = Except.ok 3 ∧
    DbModel.get exBlock ("points") (none : Option Nat) emptyStoreN =
      Except.error (PyErr.storeKeyError exPointsKey) ∧
    DbModel.get exBlock ("points") (none : Option Nat) (storeSet exPointsKey 5 emptyStoreN) =
      Except.ok 5 :=
  ⟨((get_default_exactly_on_keyerror exBlock ("missing") (3 : Nat) emptyStoreN).1
      ("missing") rfl).1,
   ((get_default_exactly_on_keyerror exBlock ("points") (3 : Nat) emptyStoreN).2.1
      exPointsKey rfl rfl).2,
   (get_default_exactly_on_keyerror exBlock ("points") (3 : Nat)
      (storeSet exPointsKey 5 emptyStoreN)).2.2.1 exPointsKey 5 rfl rfl none⟩

/-- Claim C7 counterexample: `set_many` on a mapping holding a crashing
NONE-block name (`meta`) before an unresolvable name (`missing`) raises
`UnboundLocalError`, not the `KeyError` (NotFound) the claim promises —
though the store still is not written. -/
theorem set_many_unbound_local_cex :
    DbModel.getfield exBlock ("missing") = Except.error (PyErr.fieldKeyError ("missing")) ∧
    DbModel.set_many exBlock [(("meta"), (0 : Nat)), (("missing"), 0)] emptyStoreN =
      Except.error PyErr.unboundLocal :=
  ⟨rfl, rfl⟩

/-- Claim C7 (corrected): for `set` and `delete`, an unresolvable field
name raises its `KeyError` (NotFound) and the operation yields no new
store state.  `set_many` resolves every name to a key before its single
bulk write: any unresolvable name in the mapping makes it fail with some
error before any write, and the error is that name's NotFound whenever
every earlier name in iteration order constructs its key successfully. -/
theorem mutations_fail_before_store_write {V : Type} :
    (∀ (b : Block) (n : String) (e : PyErr) (v : V) (s : StoreFn V),
       DbModel.getfield b n = Except.error e →
       DbModel.set b n v s = Except.error e ∧ DbModel.delete b n s = Except.error e) ∧
    (∀ (b : Block) (pairs : List (String × V)) (s : StoreFn V) (n : String) (e : PyErr),
       n ∈ pairs.map Prod.fst → DbModel.getfield b n = Except.error e →
       ∃ e2, DbModel.set_many b pairs s = Except.error e2) ∧
    (∀ (b : Block) (pre : List (String × V)) (n : String) (v : V) (rest : List (String × V))
       (s : StoreFn V) (e : PyErr),
       (∀ p ∈ pre, ∃ k, DbModel.key b p.1 = Except.ok k) →
       DbModel.getfield b n = Except.error e →
       DbModel.set_many b (pre ++ (n, v) :: rest) s = Except.error e) := by
  refine ⟨?_, ?_, ?_⟩
  · intro b n e v s hg
    have hk := key_error_of_getfield_error b n e hg
    exact ⟨by simp [DbModel.set, hk], by simp [DbModel.delete, hk]⟩
  · intro b pairs s n e hmem hg
    have hk := key_error_of_getfield_error b n e hg
    obtain ⟨e2, h2⟩ := keys_for_error_mem b n e pairs hmem hk
    exact ⟨e2, by simp [DbModel.set_many, h2]⟩
  · intro b pre n v rest s e hpre hg
    have hk := key_error_of_getfield_error b n e hg
    have h2 := keys_for_append_error b n v e rest hk pre hpre
    simp [DbModel.set_many, h2]

/-- Witness for C7 (amended): a failing `set`, a failing `delete`, and a
`set_many` whose second name is unresolvable while the first builds its
key — each reporting the NotFound with no store state produced. -/
theorem mutations_fail_before_store_write_witness :
    DbModel.set exBlock ("missing") (0 : Nat) emptyStoreN =
      Except.error (PyErr.fieldKeyError ("missing")) ∧
    DbModel.delete exBlock ("missing") emptyStoreN =
      Except.error (PyErr.fieldKeyError ("missing")) ∧
    DbModel.set_many exBlock [(("points"), (1 : Nat)), (("missing"), 0)] emptyStoreN =
      Except.error (PyErr.fieldKeyError ("missing")) := by
  refine ⟨?_, ?_, ?_⟩
  · exact ((@mutations_fail_before_store_write Nat).1 exBlock ("missing")
      (PyErr.fieldKeyError ("missing")) 0 emptyStoreN rfl).1
  · exact ((@mutations_fail_before_store_write Nat).1 exBlock ("missing")
      (PyErr.fieldKeyError ("missing")) 0 emptyStoreN rfl).2
  · exact (@mutations_fail_before_store_write Nat).2.2 exBlock [(("points"), (1 : Nat))]
      ("missing") 0 [] emptyStoreN (PyErr.fieldKeyError ("missing"))
      (by
        intro p hp
        rw [List.mem_singleton] at hp
        subst hp
        exact ⟨exPointsKey, rfl⟩) rfl

/-- Claim C8 (confirmed): the base-class `set_many` produces exactly the
final state of applying `set` once per entry in iteration order (a left
fold), for every mapping, every state type and every `set` operation; in
particular over the two-entry mapping a maps-to 1, b maps-to 2 it is
indistinguishable from the two sequential `set` calls in that order. -/
theorem set_many_default_sequential {κ ν σ σ2 : Type} (set : κ → ν → σ → σ) :
    (∀ (pairs : List (κ × ν)) (s : σ),
       KeyValueStore.set_many set pairs s = specSequentialSets set pairs s) ∧
    (∀ (set2 : String → Nat → σ2 → σ2) (s0 : σ2),
       KeyValueStore.set_many set2 [(("a"), (1 : Nat)), (("b"), 2)] s0 =
         set2 ("b") 2 (set2 ("a") 1 s0)) :=
  ⟨kvs_set_many_foldl set, fun _ _ => rfl⟩

/-- Claim C9 (confirmed): a facade `set` of value `v` followed by a facade
`get` of the same name returns `v`, over the concrete store whose `get`
yields the most recently `set` value; both calls run the pure `_key` on
identical inputs and hence address the same key. -/
theorem set_get_roundtrip {V : Type} (b : Block) (n : String) (v : V) (s s2 : StoreFn V)
    (h : DbModel.set b n v s = Except.ok s2) :
    DbModel.get b n (none : Option V) s2 = Except.ok v := by
  cases hk : DbModel.key b n with
  | error e =>
    simp [DbModel.set, hk] at h
  | ok k =>
    have hset : DbModel.set b n v s = Except.ok (storeSet k v s) := by
      simp [DbModel.set, hk]
    rw [hset] at h
    have hs2 : s2 = storeSet k v s := (Except.ok.inj h).symm
    subst hs2
    simp [DbModel.get, DbModel.getRaw, hk, storeSet]

/-- Witness for C9: setting `points` to 9 then getting it returns 9. -/
theorem set_get_roundtrip_witness :
    DbModel.get exBlock ("points") (none : Option Nat)
      (storeSet exPointsKey (9 : Nat) emptyStoreN) = Except.ok 9 :=
  set_get_roundtrip exBlock ("points") 9 emptyStoreN
    (storeSet exPointsKey (9 : Nat) emptyStoreN) rfl

/-- Lexing the concrete prefix of the attribute-path example: whatever the
final character is, the scanner reaches it with the pending partial
atword `@id`. -/
theorem lexRowPrefix (c : Char) :
    lexList ((".//row/@id").toList ++ [c]) =
      [Tok.dot, Tok.slashslash, Tok.word [('r'), ('o'), ('w')], Tok.slash] ++
        lexAux (LexMode.inAtWord [('@'), ('i'), ('d')]) [c] := rfl

/-- Claim C4 counterexample: the path of the claim does not compile at
all — its leading `//` arrives in state `ROOT`, where `querypath` raises
`NotImplementedError` (so no `descendants()` call, no query handle, and
not `BadPath`). -/
theorem querypath_root_descendants_cex :
    Runtime.querypath ("//row/@id") = Except.error PErr.notImplemented := rfl

/-- Claim C4 (corrected): a leading `//` is rejected as unimplemented, so
the claimed call sequence needs a leading no-op `.` selector.  Compiling
`.//row/@id` invokes, in order, `descendants()`, then `children()`
followed by `tagged("row")`, then `attr("id")`, and ends in the terminal
`FINAL` state.  Appending one more character raises `BadPath` exactly when
that character cannot extend the attribute word and is not a newline (the
lexer silently drops newlines); a word character instead extends the
attribute name, still compiling cleanly to the longer `attr`. -/
theorem querypath_descendants_attr_path :
    Runtime.querypath (".//row/@id") =
      Except.ok (PState.FINAL,
        [QOp.descendants, QOp.children, QOp.tagged ("row"), QOp.attr ("id")]) ∧
    (∀ c : Char, isWordChar c = false → c ≠ ('\n') →
       Runtime.querypath (String.mk ((".//row/@id").toList ++ [c])) =
         Except.error PErr.badPath) ∧
    (∀ c : Char, isWordChar c = true →
       Runtime.querypath (String.mk ((".//row/@id").toList ++ [c])) =
         Except.ok (PState.FINAL,
           [QOp.descendants, QOp.children, QOp.tagged ("row"),
            QOp.attr (String.mk [('i'), ('d'), c])])) := by
  refine ⟨rfl, ?_, ?_⟩
  · intro c hw hn
    by_cases h1 : c = ('.')
    · subst h1
      rfl
    by_cases h2 : c = ('/')
    · subst h2
      rfl
    by_cases h3 : c = ('@')
    · subst h3
      rfl
    have hB : lexAux (LexMode.inAtWord [('@'), ('i'), ('d')]) [c] =
        [Tok.atword [('@'), ('i'), ('d')], Tok.err c] := by
      simp [lexAux, lexStep, startTok, lexFlush, hw, h1, h2, h3, hn]
    show runPath PState.ROOT [] (lexList ((".//row/@id").toList ++ [c])) =
      Except.error PErr.badPath
    rw [lexRowPrefix c, hB]
    rfl
  · intro c hw
    have hB : lexAux (LexMode.inAtWord [('@'), ('i'), ('d')]) [c] =
        [Tok.atword [('@'), ('i'), ('d'), c]] := by
      simp [lexAux, lexStep, lexFlush, hw]
    show runPath PState.ROOT [] (lexList ((".//row/@id").toList ++ [c])) =
      Except.ok (PState.FINAL,
        [QOp.descendants, QOp.children, QOp.tagged ("row"),
         QOp.attr (String.mk [('i'), ('d'), c])])
    rw [lexRowPrefix c, hB]
    rfl

/-- Witness for C4 (amended): appending `/` after `@id` raises `BadPath`;
appending the word character `x` extends the attribute to `idx`. -/
theorem querypath_descendants_attr_path_witness :
    Runtime.querypath (String.mk ((".//row/@id").toList ++ [('/')])) =
      Except.error PErr.badPath ∧
    Runtime.querypath (String.mk ((".//row/@id").toList ++ [('x')])) =
      Except.ok (PState.FINAL,
        [QOp.descendants, QOp.children, QOp.tagged ("row"),
         QOp.attr (String.mk [('i'), ('d'), ('x')])]) :=
  ⟨querypath_descendants_attr_path.2.1 ('/') (by decide) (by decide),
   querypath_descendants_attr_path.2.2 ('x') (by decide)⟩

/-- Claim C5 counterexample: a `slashslash` token right after a selector —
parser state `WORD`, path `..//` — is accepted (navigating to descendants),
while arriving in state `SEP` — third token of `..////` — raises
`BadPath`: the exact opposite of the claimed transition table row. -/
theorem slashslash_word_state_cex :
    Runtime.querypath ("..//") = Except.ok (PState.SEP, [QOp.parent, QOp.descendants]) ∧
    Runtime.querypath ("..////") = Except.error PErr.badPath :=
  ⟨rfl, rfl⟩

/-- Claim C5 (corrected): a `slashslash` token is accepted exactly when the
parser is in state `WORD` (just after a selector), where it navigates to
descendants and moves to `SEP`; in state `SEP` it raises `BadPath`, in
`ROOT` it raises `NotImplementedError`, and in `FINAL` it raises
`BadPath`. -/
theorem slashslash_transitions (q : List QOp) :
    pstep PState.WORD q Tok.slashslash = Except.ok (PState.SEP, q ++ [QOp.descendants]) ∧
    pstep PState.SEP q Tok.slashslash = Except.error PErr.badPath ∧
    pstep PState.ROOT q Tok.slashslash = Except.error PErr.notImplemented ∧
    pstep PState.FINAL q Tok.slashslash = Except.error PErr.badPath :=
  ⟨rfl, rfl, rfl, rfl⟩

/-- Claim C6 counterexample: three of the spec's example paths are
rejected by the compiler — a leading `//` or `/` raises
`NotImplementedError`, and a path beginning with a bare word raises
`BadPath` (a `word` token is only accepted in state `SEP`). -/
theorem example_paths_rejected_cex :
    Runtime.querypath ("//tag") = Except.error PErr.notImplemented ∧
    Runtime.querypath ("/child/@attr") = Except.error PErr.notImplemented ∧
    Runtime.querypath ("tag1/tag2") = Except.error PErr.badPath :=
  ⟨rfl, rfl, rfl⟩

/-- Claim C6 (corrected): of the spec's example paths, only `..` and `.`
compile to a query handle; `//tag` and `/child/@attr` raise
`NotImplementedError` (leading separator in `ROOT`), and `tag1/tag2`
raises `BadPath` (leading bare word in `ROOT`). -/
theorem example_paths_status :
    Runtime.querypath ("..") = Except.ok (PState.WORD, [QOp.parent]) ∧
    Runtime.querypath (".") = Except.ok (PState.WORD, []) ∧
    Runtime.querypath ("//tag") = Except.error PErr.notImplemented ∧
    Runtime.querypath ("/child/@attr") = Except.error PErr.notImplemented ∧
    Runtime.querypath ("tag1/tag2") = Except.error PErr.badPath :=
  ⟨rfl, rfl, rfl, rfl, rfl⟩
